import Mathlib

/-!
Verification of the spec of `fr0g-ai-master-control/test-artifacts/test-esmtp-client.py`,
the ESMTP threat-vector test harness of the fr0g-ai repository.

The Python script is embedded shallowly:

* `TestCase` mirrors the per-call arguments of `send_test_email`
  (`from_addr`, `to_addr`, `subject`, `body`, `test_name`).
* The message construction in the `try` block (`MIMEMultipart`; assignment of the
  `From`, `To`, `Subject` headers; `attach(MIMEText(body, 'plain'))`) is embedded
  as `MimeMessage` / `buildMessage`, and `msg.as_string()` as `asString`, which
  serialises the three explicitly-set headers, a blank separator line and the
  single `text/plain` part (the extra machine headers the email library adds,
  such as `MIME-Version` and multipart boundaries, carry no TestCase content and
  are elided).
* The effects of one `send_test_email` call are a trace of `Event`s (printed
  lines, connection opened, message handed to `sendmail`, connection closed,
  sleeps).  An `Oracle` decides, for each of the four fallible steps of the
  `try` block (message build, `smtplib.SMTP(host, port)` connect, `sendmail`,
  `quit`), whether that step succeeds or raises, and with which exception text;
  `send_test_email` is the resulting total function `Oracle → ... → Bool × List Event`,
  following the Python control flow: the first raising step jumps to the single
  `except` handler, which prints the FAILED line and returns `False`.
  The embedding credits a `connClosed` event only when `quit` completes; a
  connect failure opens no connection (`smtplib` closes the socket before
  re-raising when `connect` fails).
* `mainTraceAt`/`mainTrace` mirror `main`: banner, the five hard-coded calls
  with `time.sleep(1)` between consecutive calls, and the closing tip lines.
  `suiteTrace`/`suiteResults` are the same runner over an arbitrary catalogue,
  used for the claims quantified over catalogues.
-/

namespace Esmtp

/-- A test case: the per-call arguments of `send_test_email`, in the order of the
Python parameter list. -/
structure TestCase where
  from_addr : String
  to_addr : String
  subject : String
  body : String
  test_name : String
deriving DecidableEq, Repr

/-- The message object built in the `try` block: an ordered header list and the
attached parts, each a `(subtype, content)` pair. -/
structure MimeMessage where
  headers : List (String × String)
  parts : List (String × String)
deriving DecidableEq, Repr

/-- Embeds `msg = MIMEMultipart(); msg['From'] = ...; msg['To'] = ...;
msg['Subject'] = ...; msg.attach(MIMEText(body, 'plain'))`. -/
def buildMessage (tc : TestCase) : MimeMessage :=
  { headers := [("From", tc.from_addr), ("To", tc.to_addr), ("Subject", tc.subject)]
    parts := [("plain", tc.body)] }

/-- Header lookup on the message object (first binding wins, as in `email.message`). -/
def getHeader (m : MimeMessage) (key : String) : Option String :=
  (m.headers.find? fun p => p.1 = key).map fun p => p.2

/-- The content of the first `text/plain` part of the message object. -/
def plainBody (m : MimeMessage) : Option String :=
  (m.parts.find? fun p => p.1 = "plain").map fun p => p.2

/-- One serialised header line, `Key: value`. -/
def headerLine (p : String × String) : String :=
  p.1 ++ ": " ++ p.2

/-- The first part's content, or empty when there is none. -/
def firstPart (m : MimeMessage) : String :=
  match m.parts with
  | [] => ""
  | p :: _ => p.2

/-- Embeds `msg.as_string()`: each header on its own line, a blank line, then the
body of the single part. -/
def asString (m : MimeMessage) : String :=
  ((m.headers.map headerLine).foldr (fun l acc => l ++ "\n" ++ acc) "") ++ "\n" ++ firstPart m

end Esmtp

namespace Esmtp

/-! Character-list helpers for parsing the serialised payload back. -/

/-- Splits a character list at every newline; always returns at least one chunk. -/
def splitNl : List Char → List (List Char)
  | [] => [[]]
  | c :: cs =>
    if c = '\n' then [] :: splitNl cs
    else
      match splitNl cs with
      | [] => [[c]]
      | l :: ls => (c :: l) :: ls

/-- Joins chunks with a newline between consecutive chunks; left inverse of `splitNl`. -/
def joinNl : List (List Char) → List Char
  | [] => []
  | [l] => l
  | l :: ls => l ++ '\n' :: joinNl ls

/-- Removes the leading occurrence of `p` from `l`, if `l` starts with `p`. -/
def stripPre : List Char → List Char → Option (List Char)
  | [], l => some l
  | _ :: _, [] => none
  | a :: as, b :: bs => if a = b then stripPre as bs else none

/-- Whether `l` starts with `p`. -/
def hasPre (p l : List Char) : Bool :=
  (stripPre p l).isSome

/-- Whether `p` occurs as a contiguous run somewhere in `l`. -/
def hasSub (p : List Char) : List Char → Bool
  | [] => hasPre p []
  | c :: cs => hasPre p (c :: cs) || hasSub p cs

/-- Parses a serialised payload back into `(from, to, subject, body)`: three
labelled header lines, a blank line, and the remaining lines as the body. -/
def parsePayload (s : String) : Option (String × String × String × String) :=
  match splitNl s.data with
  | l1 :: l2 :: l3 :: [] :: rest =>
    (stripPre "From: ".data l1).bind fun f =>
    (stripPre "To: ".data l2).bind fun t =>
    (stripPre "Subject: ".data l3).bind fun sb =>
    some (String.mk f, String.mk t, String.mk sb, String.mk (joinNl rest))
  | _ => none

end Esmtp

namespace Esmtp

/-! The effect model of `send_test_email` and `main`. -/

/-- One observable effect of the script. -/
inductive Event where
  | printLine (line : String)
  | connOpened (host : String) (port : Nat)
  | mailSent (sender : String) (rcpts : List String) (payload : String)
  | connClosed
  | slept (secs : Nat)
deriving DecidableEq, Repr

/-- Decides, for one `send_test_email` call, which of the four fallible steps of
the `try` block raises, and with what exception text (`none` = the step
succeeds). -/
structure Oracle where
  buildErr : Option String
  connectErr : Option String
  sendErr : Option String
  quitErr : Option String
deriving DecidableEq, Repr

/-- The text printed by the `except` branch: `FAILED Failed to send email: {e}`
with the three-space indent of the source. -/
def failLine (e : String) : String :=
  "   FAILED Failed to send email: " ++ e

/-- The success line printed after `server.quit()` returns. -/
def okLine : String :=
  "   COMPLETED Email sent successfully"

/-- Embeds `send_test_email(smtp_host, smtp_port, from_addr, to_addr, subject,
body, test_name)`: the four echo prints, then the `try` block, returning the
Python return value paired with the trace of effects. -/
def send_test_email (o : Oracle) (smtp_host : String) (smtp_port : Nat)
    (from_addr to_addr subject body test_name : String) : Bool × List Event :=
  let pre : List Event :=
    [Event.printLine ("\nTESTING " ++ test_name),
     Event.printLine ("   From: " ++ from_addr),
     Event.printLine ("   To: " ++ to_addr),
     Event.printLine ("   Subject: " ++ subject)]
  match o.buildErr with
  | some e => (false, pre ++ [Event.printLine (failLine e)])
  | none =>
    let msg := buildMessage ⟨from_addr, to_addr, subject, body, test_name⟩
    match o.connectErr with
    | some e => (false, pre ++ [Event.printLine (failLine e)])
    | none =>
      let afterConn := pre ++ [Event.connOpened smtp_host smtp_port]
      match o.sendErr with
      | some e => (false, afterConn ++ [Event.printLine (failLine e)])
      | none =>
        let afterSend := afterConn ++ [Event.mailSent from_addr [to_addr] (asString msg)]
        match o.quitErr with
        | some e => (false, afterSend ++ [Event.printLine (failLine e)])
        | none => (true, afterSend ++ [Event.connClosed, Event.printLine okLine])

/-- `send_test_email` applied to a `TestCase`'s fields, as `main` does. -/
def sendCase (o : Oracle) (host : String) (port : Nat) (tc : TestCase) : Bool × List Event :=
  send_test_email o host port tc.from_addr tc.to_addr tc.subject tc.body tc.test_name

/-- The exception that aborts the `try` block, if any: the first failing step wins. -/
def caseError (o : Oracle) : Option String :=
  match o.buildErr with
  | some e => some e
  | none =>
    match o.connectErr with
    | some e => some e
    | none =>
      match o.sendErr with
      | some e => some e
      | none => o.quitErr

/-! The hard-coded catalogue of `main`, call by call. -/

/-- Test 1 of `main`: legitimate business email. -/
def case1 : TestCase :=
  ⟨"ceo@company.com", "team@company.com", "Q4 Strategy Meeting",
   "Team, please join us for the Q4 strategy meeting on Friday at 2 PM.",
   "Legitimate Business Email"⟩

/-- Test 2 of `main`: newsletter email. -/
def case2 : TestCase :=
  ⟨"newsletter@company.com", "subscriber@example.com",
   "Weekly Newsletter - AI Security Updates",
   "Welcome to our weekly newsletter featuring the latest in AI security research.",
   "Newsletter Email"⟩

/-- Test 3 of `main`: suspicious phishing attempt. -/
def case3 : TestCase :=
  ⟨"security@bank-fake.com", "customer@example.com",
   "URGENT: Account Security Alert",
   "Your account will be suspended in 24 hours unless you verify your credentials immediately. Click here: http://fake-bank-security.com/login",
   "Suspicious Phishing Email"⟩

/-- Test 4 of `main`: malware delivery attempt. -/
def case4 : TestCase :=
  ⟨"admin@suspicious-domain.ru", "victim@company.com",
   "Invoice Attached - Please Review",
   "Please find attached invoice. Download and execute the file to view: http://malware-site.com/invoice.exe",
   "Malware Delivery Attempt"⟩

/-- Test 5 of `main`: social engineering attempt. -/
def case5 : TestCase :=
  ⟨"it-support@company-fake.com", "employee@company.com",
   "IT Security Update Required",
   "Your password expires today. Please update it immediately by clicking: http://fake-company-portal.com/update-password",
   "Social Engineering Attempt"⟩

/-- The ordered catalogue of the five hard-coded calls of `main`. -/
def catalogue : List TestCase :=
  [case1, case2, case3, case4, case5]

/-- The two banner lines printed before the first test (the second is `"=" * 60`). -/
def bannerLines : List Event :=
  [Event.printLine "SECURITY fr0g.ai ESMTP Threat Vector Interceptor Test Suite",
   Event.printLine (String.mk (List.replicate 60 '='))]

/-- The six closing prints of `main` (suite-completion banner and tips). -/
def tipLines : List Event :=
  [Event.printLine "\nCOMPLETED ESMTP Test Suite Completed!",
   Event.printLine "\nTIP Tips:",
   Event.printLine "   - Check MCP logs for threat analysis results",
   Event.printLine "   - Monitor AI community reviews for each email",
   Event.printLine "   - Watch for threat level classifications",
   Event.printLine "   - Observe pattern recognition in email content"]

/-- The runner's trace over an arbitrary catalogue, starting at case index `i`:
each case's `send_test_email` effects, with `time.sleep(1)` between consecutive
cases, exactly as in `main`. -/
def suiteTrace (host : String) (port : Nat) (os : Nat → Oracle) :
    Nat → List TestCase → List Event
  | _, [] => []
  | i, [tc] => (sendCase (os i) host port tc).2
  | i, tc :: tc' :: rest =>
    (sendCase (os i) host port tc).2 ++ Event.slept 1 ::
      suiteTrace host port os (i + 1) (tc' :: rest)

/-- The runner's per-case results (return value and trace of each call) over an
arbitrary catalogue, starting at case index `i`. -/
def suiteResults (host : String) (port : Nat) (os : Nat → Oracle) :
    Nat → List TestCase → List (Bool × List Event)
  | _, [] => []
  | i, tc :: rest =>
    sendCase (os i) host port tc :: suiteResults host port os (i + 1) rest

/-- The trace of `main`, generalised over the endpoint: banner, the five calls of
`send_test_email` with a one-second sleep between consecutive calls (the return
values are discarded, as in the source), then the closing tips. -/
def mainTraceAt (host : String) (port : Nat) (os : Nat → Oracle) : List Event :=
  bannerLines
    ++ (sendCase (os 0) host port case1).2 ++ Event.slept 1 ::
       ((sendCase (os 1) host port case2).2 ++ Event.slept 1 ::
        ((sendCase (os 2) host port case3).2 ++ Event.slept 1 ::
         ((sendCase (os 3) host port case4).2 ++ Event.slept 1 ::
          ((sendCase (os 4) host port case5).2 ++ tipLines))))

/-- The trace of `main` at the source's endpoint defaults `localhost:2525`. -/
def mainTrace (os : Nat → Oracle) : List Event :=
  mainTraceAt "localhost" 2525 os

/-- Value of a decimal digit character, `none` for any other character. -/
def charDigit (c : Char) : Option Nat :=
  let n := c.toNat
  if 48 ≤ n ∧ n ≤ 57 then some (n - 48) else none

/-- Reads a decimal numeral, failing on the first non-digit. -/
def parseNatAux : List Char → Nat → Option Nat
  | [], acc => some acc
  | c :: cs, acc =>
    match charDigit c with
    | none => none
    | some d => parseNatAux cs (acc * 10 + d)

/-- Modelled from the spec: parsing of the `port` configuration parameter
(`port: integer 1-65535`).  The source hard-codes `port=2525` and has no
configuration parsing; the spec assigns it to the surrounding tool. -/
def parsePort (s : String) : Option Nat :=
  match s.data with
  | [] => none
  | l => (parseNatAux l 0).bind fun n => if 1 ≤ n ∧ n ≤ 65535 then some n else none

/-- Modelled from the spec: the surrounding tool's entry point.  An unparseable
port is detected before any submission, reported once, and halts the run; a
valid port starts the run, and nothing else is fatal. -/
def runWithConfig (os : Nat → Oracle) (host portStr : String) : List Event :=
  match parsePort portStr with
  | none => [Event.printLine ("CONFIGURATION ERROR invalid port: " ++ portStr)]
  | some port => mainTraceAt host port os

/-! Outcome reporting, as observable in the trace. -/

/-- Whether a trace event is a per-case outcome line: the success line, or a
line carrying the failure marker of the `except` branch. -/
def isOutcome (ev : Event) : Bool :=
  match ev with
  | Event.printLine s => s == okLine || hasPre "   FAILED ".data s.data
  | _ => false

/-- The outcome lines of a trace, in order. -/
def outcomeEvents (evs : List Event) : List Event :=
  evs.filter isOutcome

/-- The single outcome line one `send_test_email` call reports, as a function of
its oracle. -/
def outcomeEvent (o : Oracle) : Event :=
  match caseError o with
  | some e => Event.printLine (failLine e)
  | none => Event.printLine okLine

/-- The reported error detail of a trace: the text after the `FAILED ` marker of
the first failure line, if any. -/
def errorDetail (evs : List Event) : Option String :=
  (evs.filterMap fun ev =>
    match ev with
    | Event.printLine s => (stripPre "   FAILED ".data s.data).map String.mk
    | _ => none).head?

/-- Whether an event touches the network (connection or message exchange). -/
def netEvent (ev : Event) : Bool :=
  match ev with
  | Event.connOpened _ _ => true
  | Event.mailSent _ _ _ => true
  | Event.connClosed => true
  | _ => false

/-- Number of connection-open events in a trace. -/
def openCount (evs : List Event) : Nat :=
  evs.countP fun ev =>
    match ev with
    | Event.connOpened _ _ => true
    | _ => false

/-- Number of connection-close events in a trace. -/
def closeCount (evs : List Event) : Nat :=
  evs.countP fun ev =>
    match ev with
    | Event.connClosed => true
    | _ => false

end Esmtp

namespace Esmtp

/-! Helper lemmas. -/

theorem isOutcome_testing (x : String) :
    isOutcome (Event.printLine ("\nTESTING " ++ x)) = false := rfl

theorem isOutcome_fromEcho (x : String) :
    isOutcome (Event.printLine ("   From: " ++ x)) = false := rfl

theorem isOutcome_toEcho (x : String) :
    isOutcome (Event.printLine ("   To: " ++ x)) = false := rfl

theorem isOutcome_subjEcho (x : String) :
    isOutcome (Event.printLine ("   Subject: " ++ x)) = false := rfl

theorem isOutcome_ok : isOutcome (Event.printLine okLine) = true := rfl

theorem isOutcome_fail (e : String) :
    isOutcome (Event.printLine (failLine e)) = true := rfl

theorem isOutcome_conn (h : String) (p : Nat) :
    isOutcome (Event.connOpened h p) = false := rfl

theorem isOutcome_sent (s : String) (r : List String) (pl : String) :
    isOutcome (Event.mailSent s r pl) = false := rfl

theorem isOutcome_closed : isOutcome Event.connClosed = false := rfl

theorem isOutcome_slept (n : Nat) : isOutcome (Event.slept n) = false := rfl

theorem outcomeEvents_sendCase (o : Oracle) (host : String) (port : Nat) (tc : TestCase) :
    outcomeEvents (sendCase o host port tc).2 = [outcomeEvent o] := by
  rcases o with ⟨b, c, s, q⟩
  cases b <;> cases c <;> cases s <;> cases q <;>
    simp [sendCase, send_test_email, outcomeEvents, outcomeEvent, caseError,
      List.filter_append, List.filter_cons, isOutcome_testing, isOutcome_fromEcho,
      isOutcome_toEcho, isOutcome_subjEcho, isOutcome_ok, isOutcome_fail,
      isOutcome_conn, isOutcome_sent, isOutcome_closed, isOutcome_slept]

theorem outcomeEvents_suiteTrace (host : String) (port : Nat) (os : Nat → Oracle) :
    ∀ (cs : List TestCase) (n : Nat),
      outcomeEvents (suiteTrace host port os n cs) =
        (List.range cs.length).map fun j => outcomeEvent (os (n + j)) := by
  intro cs
  induction cs with
  | nil => intro n; simp [suiteTrace, outcomeEvents]
  | cons tc rest ih =>
    intro n
    cases rest with
    | nil =>
      have h0 := outcomeEvents_sendCase (os n) host port tc
      simpa [suiteTrace, List.range_succ] using h0
    | cons tc' rest' =>
      have hsplit : suiteTrace host port os n (tc :: tc' :: rest') =
          (sendCase (os n) host port tc).2 ++ Event.slept 1 ::
            suiteTrace host port os (n + 1) (tc' :: rest') := rfl
      have h1 : outcomeEvents ((sendCase (os n) host port tc).2 ++ Event.slept 1 ::
          suiteTrace host port os (n + 1) (tc' :: rest')) =
          outcomeEvents (sendCase (os n) host port tc).2 ++
            outcomeEvents (suiteTrace host port os (n + 1) (tc' :: rest')) := by
        simp [outcomeEvents, List.filter_append, List.filter_cons, isOutcome_slept]
      rw [hsplit, h1, outcomeEvents_sendCase, ih (n + 1)]
      rw [show (tc :: tc' :: rest').length = (tc' :: rest').length + 1 from rfl,
        List.range_succ_eq_map]
      simp [List.map_map, Function.comp]
      exact fun a _ => by rw [Nat.add_assoc, Nat.add_comm 1 a]

theorem mainTraceAt_eq_suite (host : String) (port : Nat) (os : Nat → Oracle) :
    mainTraceAt host port os =
      bannerLines ++ suiteTrace host port os 0 catalogue ++ tipLines := by
  simp [mainTraceAt, suiteTrace, catalogue]

theorem stripPre_append (p l : List Char) : stripPre p (p ++ l) = some l := by
  induction p with
  | nil => rfl
  | cons a as ih => simp [stripPre, ih]

theorem splitNl_ne_nil : ∀ l : List Char, splitNl l ≠ []
  | [] => by simp [splitNl]
  | c :: cs => by
    simp only [splitNl]
    by_cases h : c = '\n'
    · simp [h]
    · simp only [h, if_false]
      cases hcs : splitNl cs <;> simp

theorem splitNl_append_nl (a b : List Char) (h : '\n' ∉ a) :
    splitNl (a ++ '\n' :: b) = a :: splitNl b := by
  induction a with
  | nil => simp [splitNl]
  | cons c cs ih =>
    have h1 : ¬ (c = '\n') := fun hc => h (by simp [hc])
    have h2 : '\n' ∉ cs := fun hc => h (by simp [hc])
    simp only [List.cons_append, splitNl, h1, if_false, List.append_eq, ih h2]

theorem joinNl_splitNl (l : List Char) : joinNl (splitNl l) = l := by
  induction l with
  | nil => rfl
  | cons c cs ih =>
    simp only [splitNl]
    by_cases h : c = '\n'
    · subst h
      rw [if_pos rfl]
      cases hr : splitNl cs with
      | nil => exact absurd hr (splitNl_ne_nil cs)
      | cons x xs =>
        rw [hr] at ih
        show joinNl ([] :: x :: xs) = '\n' :: cs
        simpa [joinNl] using ih
    · rw [if_neg h]
      cases hr : splitNl cs with
      | nil => exact absurd hr (splitNl_ne_nil cs)
      | cons x xs =>
        rw [hr] at ih
        cases xs with
        | nil => simpa [joinNl] using ih
        | cons y ys =>
          show joinNl ((c :: x) :: y :: ys) = c :: cs
          simpa [joinNl] using ih

theorem asString_data (tc : TestCase) : (asString (buildMessage tc)).data =
    "From: ".data ++ tc.from_addr.data ++ '\n' ::
      ("To: ".data ++ tc.to_addr.data ++ '\n' ::
        ("Subject: ".data ++ tc.subject.data ++ '\n' :: '\n' :: tc.body.data)) := by
  simp [asString, buildMessage, headerLine, firstPart, String.data_append, List.append_assoc]

theorem parse_asString (tc : TestCase)
    (hf : '\n' ∉ tc.from_addr.data) (ht : '\n' ∉ tc.to_addr.data)
    (hs : '\n' ∉ tc.subject.data) :
    parsePayload (asString (buildMessage tc)) =
      some (tc.from_addr, tc.to_addr, tc.subject, tc.body) := by
  have hfa : '\n' ∉ "From: ".data ++ tc.from_addr.data := by
    intro hc
    rcases List.mem_append.mp hc with h | h
    · revert h; decide
    · exact hf h
  have hta : '\n' ∉ "To: ".data ++ tc.to_addr.data := by
    intro hc
    rcases List.mem_append.mp hc with h | h
    · revert h; decide
    · exact ht h
  have hsa : '\n' ∉ "Subject: ".data ++ tc.subject.data := by
    intro hc
    rcases List.mem_append.mp hc with h | h
    · revert h; decide
    · exact hs h
  unfold parsePayload
  rw [asString_data tc]
  rw [show "From: ".data ++ tc.from_addr.data ++ '\n' ::
        ("To: ".data ++ tc.to_addr.data ++ '\n' ::
          ("Subject: ".data ++ tc.subject.data ++ '\n' :: '\n' :: tc.body.data)) =
      ("From: ".data ++ tc.from_addr.data) ++ '\n' ::
        (("To: ".data ++ tc.to_addr.data) ++ '\n' ::
          (("Subject: ".data ++ tc.subject.data) ++ '\n' :: '\n' :: tc.body.data)) by
    simp [List.append_assoc]]
  rw [splitNl_append_nl _ _ hfa]
  rw [splitNl_append_nl _ _ hta]
  rw [splitNl_append_nl _ _ hsa]
  rw [show splitNl ('\n' :: tc.body.data) = [] :: splitNl tc.body.data from rfl]
  simp only [stripPre_append, Option.some_bind, joinNl_splitNl]

theorem failedStrip_testing (x : String) :
    stripPre "   FAILED ".data ("\nTESTING " ++ x).data = none := rfl

theorem failedStrip_fromEcho (x : String) :
    stripPre "   FAILED ".data ("   From: " ++ x).data = none := rfl

theorem failedStrip_toEcho (x : String) :
    stripPre "   FAILED ".data ("   To: " ++ x).data = none := rfl

theorem failedStrip_subjEcho (x : String) :
    stripPre "   FAILED ".data ("   Subject: " ++ x).data = none := rfl

theorem failedStrip_ok :
    stripPre "   FAILED ".data okLine.data = none := rfl

theorem failedStrip_fail (e : String) :
    stripPre "   FAILED ".data (failLine e).data =
      some ("Failed to send email: ".data ++ e.data) := rfl

theorem mk_fail_detail (e : String) :
    String.mk ("Failed to send email: ".data ++ e.data) = "Failed to send email: " ++ e := rfl

theorem fail_detail_ne_empty (e : String) : "Failed to send email: " ++ e ≠ "" := by
  intro h
  have h2 := congrArg String.data h
  simp [String.data_append] at h2

theorem errorDetail_send (o : Oracle) (host : String) (port : Nat)
    (from_addr to_addr subject body test_name : String) :
    errorDetail (send_test_email o host port from_addr to_addr subject body test_name).2 =
      (caseError o).map fun e => "Failed to send email: " ++ e := by
  rcases o with ⟨ob, oc, osn, oq⟩
  cases ob <;> cases oc <;> cases osn <;> cases oq <;> rfl

/-- An oracle at which every step of the `try` block succeeds. -/
def okOracle : Oracle := ⟨none, none, none, none⟩

/-- An oracle at which `sendmail` raises a connection-refused transport error
after a successful connect. -/
def refusedOracle : Oracle := ⟨none, none, some "Connection refused", none⟩

/-- An oracle at which the MIME message construction raises before any network
activity. -/
def buildFailOracle : Oracle := ⟨some "MIME boom", none, none, none⟩

/-- Every case succeeds. -/
def osAllOk : Nat → Oracle := fun _ => okOracle

/-- A forced failure injected into the third case of five. -/
def osFail3 : Nat → Oracle := fun j => if j = 2 then refusedOracle else okOracle

theorem suiteResults_length (host : String) (port : Nat) (os : Nat → Oracle) :
    ∀ (cs : List TestCase) (n : Nat), (suiteResults host port os n cs).length = cs.length := by
  intro cs
  induction cs with
  | nil => intro n; rfl
  | cons tc rest ih => intro n; simp [suiteResults, ih (n + 1)]

theorem suiteResults_get (host : String) (port : Nat) (os : Nat → Oracle) :
    ∀ (cs : List TestCase) (n j : Nat),
      (suiteResults host port os n cs)[j]? =
        (cs[j]?).map fun tc => sendCase (os (n + j)) host port tc := by
  intro cs
  induction cs with
  | nil => intro n j; simp [suiteResults]
  | cons tc rest ih =>
    intro n j
    cases j with
    | zero => simp [suiteResults]
    | succ j' =>
      have harith : n + 1 + j' = n + (j' + 1) := by omega
      simp only [suiteResults, List.getElem?_cons_succ, ih (n + 1) j', harith]

end Esmtp

namespace Esmtp

/-! The claims. -/

/-- C1: for every catalogue of TestCases, every endpoint and every oracle
assignment, the suite trace contains exactly one reported outcome line per
TestCase — the `j`-th outcome line is the `j`-th case's outcome, so outcomes
appear in catalogue order, and a failing case always contributes its FAILED
line (failures are never silent). -/
theorem claim_run_reports_one_outcome_per_case (host : String) (port : Nat)
    (os : Nat → Oracle) (cs : List TestCase) :
    outcomeEvents (suiteTrace host port os 0 cs) =
      (List.range cs.length).map (fun j => outcomeEvent (os j)) ∧
    (outcomeEvents (suiteTrace host port os 0 cs)).length = cs.length := by
  have h := outcomeEvents_suiteTrace host port os cs 0
  constructor
  · simpa using h
  · rw [h]; simp

/-- C2 fails on the code: when `sendmail` raises after a successful connect
(for example a protocol rejection or a reset), the `except` handler returns
without calling `quit`, so the trace opens one connection and closes none. -/
theorem claim_connection_leak_on_send_failure :
    (send_test_email refusedOracle "localhost" 2525 "test@example.com" "admin@company.com"
      "Test Email" "Test message" "Generic Test").1 = false ∧
    openCount (send_test_email refusedOracle "localhost" 2525 "test@example.com"
      "admin@company.com" "Test Email" "Test message" "Generic Test").2 = 1 ∧
    closeCount (send_test_email refusedOracle "localhost" 2525 "test@example.com"
      "admin@company.com" "Test Email" "Test message" "Generic Test").2 = 0 := by
  decide

/-- C2 amended: the Connection is opened exactly when message construction and
connect succeed, and it is closed exactly when the entire submission sequence
(build, connect, sendmail, quit) succeeds; on a sendmail or quit failure after
a successful connect, `send_test_email` returns without closing it. -/
theorem claim_connection_close_accounting (o : Oracle) (host : String) (port : Nat)
    (from_addr to_addr subject body test_name : String) :
    openCount (send_test_email o host port from_addr to_addr subject body test_name).2 =
      (if o.buildErr = none ∧ o.connectErr = none then 1 else 0) ∧
    closeCount (send_test_email o host port from_addr to_addr subject body test_name).2 =
      (if caseError o = none then 1 else 0) := by
  rcases o with ⟨ob, oc, osn, oq⟩
  cases ob <;> cases oc <;> cases osn <;> cases oq <;> exact ⟨rfl, rfl⟩

/-- C3: rendering is content-preserving — the message object carries the
TestCase's `from_addr`, `to_addr`, `subject` and `body` verbatim in its
`From`, `To`, `Subject` headers and its single plain part, and parsing the
serialised payload back recovers exactly the original fields (for any
TestCase whose header fields contain no newline, which would break the
line-oriented header syntax itself). -/
theorem claim_rendering_round_trip (tc : TestCase)
    (hf : '\n' ∉ tc.from_addr.data) (ht : '\n' ∉ tc.to_addr.data)
    (hs : '\n' ∉ tc.subject.data) :
    getHeader (buildMessage tc) "From" = some tc.from_addr ∧
    getHeader (buildMessage tc) "To" = some tc.to_addr ∧
    getHeader (buildMessage tc) "Subject" = some tc.subject ∧
    plainBody (buildMessage tc) = some tc.body ∧
    parsePayload (asString (buildMessage tc)) =
      some (tc.from_addr, tc.to_addr, tc.subject, tc.body) :=
  ⟨rfl, rfl, rfl, rfl, parse_asString tc hf ht hs⟩

/-- C3 witness: the round-trip at the phishing TestCase of the catalogue. -/
theorem claim_rendering_round_trip_witness :
    ('\n' ∉ case3.from_addr.data ∧ '\n' ∉ case3.to_addr.data ∧
      '\n' ∉ case3.subject.data) ∧
    parsePayload (asString (buildMessage case3)) =
      some (case3.from_addr, case3.to_addr, case3.subject, case3.body) := by
  have h1 : '\n' ∉ case3.from_addr.data := by decide
  have h2 : '\n' ∉ case3.to_addr.data := by decide
  have h3 : '\n' ∉ case3.subject.data := by decide
  exact ⟨⟨h1, h2, h3⟩, (claim_rendering_round_trip case3 h1 h2 h3).2.2.2.2⟩

/-- C7: every message the runner hands to `sendmail` carries the TestCase's
`from_addr` as envelope sender and its `to_addr` as the one and only envelope
recipient. -/
theorem claim_envelope_sender_sole_recipient (o : Oracle) (host : String) (port : Nat)
    (from_addr to_addr subject body test_name sender payload : String)
    (rcpts : List String)
    (h : Event.mailSent sender rcpts payload ∈
      (send_test_email o host port from_addr to_addr subject body test_name).2) :
    sender = from_addr ∧ rcpts = [to_addr] := by
  rcases o with ⟨ob, oc, osn, oq⟩
  cases ob <;> cases oc <;> cases osn <;> cases oq <;>
    simp [send_test_email] at h <;> exact ⟨h.1, h.2.1⟩

/-- C7 witness: the fully successful submission of the source's default
arguments hands `sendmail` exactly the default sender and the singleton
default recipient. -/
theorem claim_envelope_sender_sole_recipient_witness :
    (Event.mailSent "test@example.com" ["admin@company.com"]
        (asString (buildMessage ⟨"test@example.com", "admin@company.com", "Test Email",
          "Test message", "Generic Test"⟩)) ∈
      (send_test_email okOracle "localhost" 2525 "test@example.com" "admin@company.com"
        "Test Email" "Test message" "Generic Test").2) ∧
    ("test@example.com" = "test@example.com" ∧
      ["admin@company.com"] = ["admin@company.com"]) := by
  have hmem : Event.mailSent "test@example.com" ["admin@company.com"]
      (asString (buildMessage ⟨"test@example.com", "admin@company.com", "Test Email",
        "Test message", "Generic Test"⟩)) ∈
      (send_test_email okOracle "localhost" 2525 "test@example.com" "admin@company.com"
        "Test Email" "Test message" "Generic Test").2 := by decide
  exact ⟨hmem,
    claim_envelope_sender_sole_recipient okOracle "localhost" 2525 "test@example.com"
      "admin@company.com" "Test Email" "Test message" "Generic Test" _ _ _ hmem⟩

/-- C8: the catalogue is the deterministic ordered sequence of exactly five
TestCases, whose labels appear in the order business, newsletter, phishing,
malware delivery, social engineering; every field of every TestCase is
non-empty, and the three threat cases carry their category-defining content
(the suspicious, executable-download and credential-harvesting links, the
urgency subject). -/
theorem claim_catalogue_five_ordered_nonempty :
    catalogue.length = 5 ∧
    catalogue.map (fun tc => tc.test_name) =
      ["Legitimate Business Email", "Newsletter Email", "Suspicious Phishing Email",
        "Malware Delivery Attempt", "Social Engineering Attempt"] ∧
    (catalogue.all fun tc =>
      !(tc.from_addr == "") && !(tc.to_addr == "") && !(tc.subject == "") &&
        !(tc.body == "") && !(tc.test_name == "")) = true ∧
    hasSub "http://fake-bank-security.com/login".data case3.body.data = true ∧
    hasSub "URGENT".data case3.subject.data = true ∧
    hasSub "http://malware-site.com/invoice.exe".data case4.body.data = true ∧
    hasSub "http://fake-company-portal.com/update-password".data case5.body.data = true := by
  decide

/-- C10: `main` discards the boolean result of every `send_test_email` call —
for every combination of per-case outcomes its trace is some prefix followed
by the same constant completion banner and tips, and `mainTrace` is a total
function, so the run always returns normally with completion output
independent of individual submission outcomes. -/
theorem claim_main_banner_independent (os : Nat → Oracle) :
    ∃ pre, mainTrace os = pre ++ tipLines := by
  refine ⟨bannerLines ++ suiteTrace "localhost" 2525 os 0 catalogue, ?_⟩
  simp [mainTrace, mainTraceAt_eq_suite, List.append_assoc]

/-- C4: a failure in one TestCase never aborts the run — for any two oracle
assignments that differ only at position `i`, the runner still produces a
result for every TestCase (no fail-fast), and the result (outcome boolean and
full trace, hence submitted content) of every position other than `i` is
unchanged. -/
theorem claim_failure_isolation (host : String) (port : Nat) (os1 os2 : Nat → Oracle)
    (cs : List TestCase) (i : Nat) (h : ∀ j, j ≠ i → os1 j = os2 j) :
    (suiteResults host port os1 0 cs).length = cs.length ∧
    (suiteResults host port os2 0 cs).length = cs.length ∧
    ∀ j, j ≠ i →
      (suiteResults host port os1 0 cs)[j]? = (suiteResults host port os2 0 cs)[j]? := by
  refine ⟨suiteResults_length host port os1 cs 0, suiteResults_length host port os2 cs 0,
    fun j hj => ?_⟩
  rw [suiteResults_get host port os1 cs 0 j, suiteResults_get host port os2 cs 0 j,
    Nat.zero_add, h j hj]

/-- C4 witness: forcing a failure into case 3 of 5 leaves case 1's result
unchanged, and the run with the forced failure still attempts all five cases. -/
theorem claim_failure_isolation_witness :
    (suiteResults "localhost" 2525 osAllOk 0 catalogue)[0]? =
      (suiteResults "localhost" 2525 osFail3 0 catalogue)[0]? ∧
    (suiteResults "localhost" 2525 osFail3 0 catalogue).length = catalogue.length := by
  have h := claim_failure_isolation "localhost" 2525 osAllOk osFail3 catalogue 2
    (fun j hj => by simp [osAllOk, osFail3, hj])
  exact ⟨h.2.2 0 (by decide), h.2.1⟩

/-- C5: `succeeded` (the returned boolean) is true exactly when the entire
submission sequence — message build, connect, sendmail envelope and data, quit
— completes without rejection or transport error; on failure the reported
error detail is a non-empty human-readable string, and no error detail is
reported on success. -/
theorem claim_outcome_iff_full_success (o : Oracle) (host : String) (port : Nat)
    (from_addr to_addr subject body test_name : String) :
    ((send_test_email o host port from_addr to_addr subject body test_name).1 = true ↔
      o.buildErr = none ∧ o.connectErr = none ∧ o.sendErr = none ∧ o.quitErr = none) ∧
    ((send_test_email o host port from_addr to_addr subject body test_name).1 = true →
      errorDetail
        (send_test_email o host port from_addr to_addr subject body test_name).2 = none) ∧
    ((send_test_email o host port from_addr to_addr subject body test_name).1 = false →
      ∃ d, errorDetail
          (send_test_email o host port from_addr to_addr subject body test_name).2 =
            some d ∧ d ≠ "") := by
  have hd := errorDetail_send o host port from_addr to_addr subject body test_name
  rcases o with ⟨ob, oc, osn, oq⟩
  cases ob <;> cases oc <;> cases osn <;> cases oq <;>
    simp_all [send_test_email, caseError, fail_detail_ne_empty]

/-- C5 witness: a sendmail failure after a successful connect yields
`succeeded = false` with a non-empty reported error detail. -/
theorem claim_outcome_iff_full_success_witness :
    ((send_test_email refusedOracle "localhost" 2525 "test@example.com" "admin@company.com"
        "Test Email" "Test message" "Generic Test").1 = false) ∧
    (∃ d, errorDetail (send_test_email refusedOracle "localhost" 2525 "test@example.com"
        "admin@company.com" "Test Email" "Test message" "Generic Test").2 =
          some d ∧ d ≠ "") := by
  have h := claim_outcome_iff_full_success refusedOracle "localhost" 2525 "test@example.com"
    "admin@company.com" "Test Email" "Test message" "Generic Test"
  have hf : (send_test_email refusedOracle "localhost" 2525 "test@example.com"
      "admin@company.com" "Test Email" "Test message" "Generic Test").1 = false := by decide
  exact ⟨hf, h.2.2 hf⟩

/-- C6: an invalid port is detected before any submission begins — the run's
trace is the single configuration-error report, with no network activity and
no TestCase attempted — while a valid port starts the full suite, which for
every oracle assignment reaches the completion banner: no other condition is
fatal to the run.  The configuration surface is modelled from the spec, since
the source hard-codes `localhost:2525` and contains no parsing. -/
theorem claim_config_error_fatal_only (os : Nat → Oracle) (host p : String) :
    (parsePort p = none →
      runWithConfig os host p =
        [Event.printLine ("CONFIGURATION ERROR invalid port: " ++ p)] ∧
      (runWithConfig os host p).countP netEvent = 0 ∧
      (runWithConfig os host p).length = 1) ∧
    (∀ port, parsePort p = some port →
      runWithConfig os host p = mainTraceAt host port os ∧
      ∃ pre, runWithConfig os host p = pre ++ tipLines) := by
  constructor
  · intro h
    have he : runWithConfig os host p =
        [Event.printLine ("CONFIGURATION ERROR invalid port: " ++ p)] := by
      simp [runWithConfig, h]
    refine ⟨he, ?_, ?_⟩ <;> rw [he] <;> rfl
  · intro port h
    have he : runWithConfig os host p = mainTraceAt host port os := by
      simp [runWithConfig, h]
    refine ⟨he, bannerLines ++ suiteTrace host port os 0 catalogue, ?_⟩
    rw [he, mainTraceAt_eq_suite, List.append_assoc]

/-- C6 witness: an unparseable port halts with the single report; the default
port `2525` parses and runs the suite. -/
theorem claim_config_error_fatal_only_witness :
    parsePort "notaport" = none ∧
    runWithConfig osAllOk "localhost" "notaport" =
      [Event.printLine ("CONFIGURATION ERROR invalid port: " ++ "notaport")] ∧
    parsePort "2525" = some 2525 ∧
    runWithConfig osAllOk "localhost" "2525" = mainTraceAt "localhost" 2525 osAllOk := by
  have h1 : parsePort "notaport" = none := by decide
  have h2 : parsePort "2525" = some 2525 := by decide
  have ha := (claim_config_error_fatal_only osAllOk "localhost" "notaport").1 h1
  have hb := (claim_config_error_fatal_only osAllOk "localhost" "2525").2 2525 h2
  exact ⟨h1, ha.1, h2, hb.1⟩

/-- C9: `send_test_email` is total at its public interface — every failing
step, including a MIME construction failure before any network activity,
leads to a returned `false` together with that case's FAILED report line in
the trace (never a propagated exception), and a build failure produces no
network event at all. -/
theorem claim_send_total_reports_failures (o : Oracle) (host : String) (port : Nat)
    (from_addr to_addr subject body test_name e : String) (h : caseError o = some e) :
    (send_test_email o host port from_addr to_addr subject body test_name).1 = false ∧
    Event.printLine (failLine e) ∈
      (send_test_email o host port from_addr to_addr subject body test_name).2 ∧
    (o.buildErr = some e →
      ((send_test_email o host port from_addr to_addr subject body test_name).2).countP
        netEvent = 0) := by
  rcases o with ⟨ob, oc, osn, oq⟩
  cases ob <;> cases oc <;> cases osn <;> cases oq <;>
    simp_all [send_test_email, caseError, netEvent]

/-- C9 witness: a failure while building the MIME payload is caught, reported,
returned as `false`, and produces no network activity. -/
theorem claim_send_total_reports_failures_witness :
    caseError buildFailOracle = some "MIME boom" ∧
    ((send_test_email buildFailOracle "localhost" 2525 "test@example.com" "admin@company.com"
        "Test Email" "Test message" "Generic Test").1 = false ∧
      Event.printLine (failLine "MIME boom") ∈
        (send_test_email buildFailOracle "localhost" 2525 "test@example.com"
          "admin@company.com" "Test Email" "Test message" "Generic Test").2 ∧
      (buildFailOracle.buildErr = some "MIME boom" →
        ((send_test_email buildFailOracle "localhost" 2525 "test@example.com"
          "admin@company.com" "Test Email" "Test message" "Generic Test").2).countP
            netEvent = 0)) := by
  have h : caseError buildFailOracle = some "MIME boom" := by decide
  exact ⟨h, claim_send_total_reports_failures buildFailOracle "localhost" 2525
    "test@example.com" "admin@company.com" "Test Email" "Test message" "Generic Test"
    "MIME boom" h⟩

end Esmtp
